import Mathlib

/-!
Shallow embedding of scripts/butterworthfilter.aa.py, function lpf_modata.

The script applies a zero-phase (forward-backward) 4th-order low-pass
Butterworth filter along the time axis of a monthly series, zero-filling
missing values before filtering and restoring the missing mask afterwards.

Modelling choices:
* A series is one-dimensional: a list of `Option ℚ` where `none` is the
  missing-value marker (NaN in the code), together with its time
  coordinates.  The code filters along axis 0 and treats further axes
  independently, so the 1-D model captures the transform.
* Frequency arithmetic is exact over ℚ; the decimal literal 30.41667 of
  the code is the rational 3041667/100000.
* The scipy kernels (signal.butter, signal.sosfiltfilt) are external
  library calls; following the design notes of the code they are kept
  abstract behind the `DSP` interface, carrying only their documented
  contracts: butter rejects a digital critical frequency outside (0, 1),
  sosfiltfilt preserves the shape of its input and rejects an input whose
  length along the filtering axis does not exceed the default pad length.
* Exceptions become `Except FilterError`.
-/

/-- Boundary extension policy passed to sosfiltfilt (the padtype keyword).
The code uses the "even" policy; a commented-out line used "odd". -/
inductive PadType where
  | even
  | odd
deriving DecidableEq, Repr

/-- Errors that abort the transform: the ValueError raised by butter when
the normalized critical frequency is not strictly between 0 and 1, and the
ValueError raised by sosfiltfilt when the series is too short for its
padding (a shape/axis mismatch). -/
inductive FilterError where
  | invalidFilterSpec
  | axisError
deriving DecidableEq, Repr

/-- A gridded series: time coordinates plus values; a value `none` is the
missing-value marker (NaN). -/
structure DataArray where
  coords : List ℤ
  values : List (Option ℚ)
deriving DecidableEq, Repr

/-- Abstract interface to the scipy DSP kernels used by the script.  The
coefficient representations (second-order sections and transfer function)
and the numeric filtering kernel are opaque types and functions; the field
`sos_len` records the documented contract that sosfiltfilt returns an
output of the same shape as its input, and `sosPadlen` is the default pad
length sosfiltfilt derives from the sos array. -/
structure DSP where
  SOS : Type
  TF : Type
  butterSOS : ℕ → ℚ → SOS
  butterTF : ℕ → ℚ → TF
  sosfiltfilt : SOS → PadType → List ℚ → List ℚ
  sosPadlen : SOS → ℕ
  sos_len : ∀ s pt x, (sosfiltfilt s pt x).length = x.length

/-- Average month length in seconds: 30.41667 * 24 * 3600 from the code. -/
def monthSeconds : ℚ := (3041667 / 100000) * 24 * 3600

/-- Sampling frequency fs = 1/(30.41667*24*3600), one sample per month. -/
def fs : ℚ := 1 / monthSeconds

/-- Nyquist frequency, half the sampling frequency. -/
def nyquist : ℚ := fs / 2

/-- Raw cutoff frequency fs/period. -/
def cutoffRaw (period : ℚ) : ℚ := fs / period

/-- Normalized cutoff: the raw cutoff as a fraction of Nyquist.  This is
the value the code passes to signal.butter. -/
def cutoffNorm (period : ℚ) : ℚ := cutoffRaw period / nyquist

/-- Diagnostic value printed by the code: the effective cutoff period in
months recovered from the normalized cutoff. -/
def printedCutoffMonths (period : ℚ) : ℚ :=
  (1 / (cutoffNorm period * nyquist)) / monthSeconds

/-- Embedding of dat.fillna(v): replace missing values by v. -/
def fillna (v : ℚ) (xs : List (Option ℚ)) : List ℚ :=
  xs.map (fun o => o.getD v)

/-- Embedding of the mask restoration dat_out.where(dat.notnull()): keep
the filtered value where the original value was present, missing
elsewhere. -/
def whereNotnull (orig : List (Option ℚ)) (filtered : List ℚ) : List (Option ℚ) :=
  List.zipWith (fun o f => Option.map (fun _ => f) o) orig filtered

/-- Embedding of signal.butter(order, Wn, "lowpass", output="sos"): per the
scipy contract a digital design requires 0 < Wn < 1 and raises ValueError
otherwise, before anything is filtered. -/
def butterChecked (D : DSP) (order : ℕ) (Wn : ℚ) : Except FilterError D.SOS :=
  if 0 < Wn ∧ Wn < 1 then Except.ok (D.butterSOS order Wn)
  else Except.error FilterError.invalidFilterSpec

/-- Embedding of signal.butter(order, Wn, "lowpass") returning transfer
function coefficients (filtb, filta); same validation as above. -/
def butterCheckedTF (D : DSP) (order : ℕ) (Wn : ℚ) : Except FilterError D.TF :=
  if 0 < Wn ∧ Wn < 1 then Except.ok (D.butterTF order Wn)
  else Except.error FilterError.invalidFilterSpec

/-- Embedding of signal.sosfiltfilt(sos, x, padtype, axis=0): per the scipy
contract it raises ValueError unless the input length along the filtering
axis exceeds the default pad length derived from the sos array. -/
def sosfiltfiltChecked (D : DSP) (s : D.SOS) (pt : PadType) (x : List ℚ) :
    Except FilterError (List ℚ) :=
  if D.sosPadlen s < x.length then Except.ok (D.sosfiltfilt s pt x)
  else Except.error FilterError.axisError

/-- Embedding of lpf_modata: compute the normalized cutoff, design the
4th-order low-pass Butterworth filter in sos form, also design the unused
transfer-function form, filter the zero-filled data forward-backward along
axis 0 with even padding, and restore the missing mask. -/
def lpf_modata (D : DSP) (dat : DataArray) (period : ℚ) :
    Except FilterError DataArray := do
  let cutoff := cutoffNorm period
  let filtsos ← butterChecked D 4 cutoff
  let _filtba ← butterCheckedTF D 4 cutoff
  let filtered ← sosfiltfiltChecked D filtsos PadType.even (fillna 0 dat.values)
  pure { coords := dat.coords, values := whereNotnull dat.values filtered }

/-- Variant of lpf_modata with the dead transfer-function design (line 13
of the script) removed. -/
def lpf_modata_noTF (D : DSP) (dat : DataArray) (period : ℚ) :
    Except FilterError DataArray := do
  let cutoff := cutoffNorm period
  let filtsos ← butterChecked D 4 cutoff
  let filtered ← sosfiltfiltChecked D filtsos PadType.even (fillna 0 dat.values)
  pure { coords := dat.coords, values := whereNotnull dat.values filtered }

/-- Concrete DSP instance used to evaluate the embedding on concrete
inputs: the identity filtering kernel with the pad length 15 that the
default formula of sosfiltfilt yields for a 4th-order Butterworth design
(two sections, no zero coefficients). -/
def idDSP : DSP where
  SOS := Unit
  TF := Unit
  butterSOS := fun _ _ => ()
  butterTF := fun _ _ => ()
  sosfiltfilt := fun _ _ x => x
  sosPadlen := fun _ => 15
  sos_len := fun _ _ _ => rfl

/-- Concrete 16-sample series with two missing values. -/
def exDat : DataArray where
  coords := [0, 1, 2, 3, 4, 5, 6, 7, 8, 9, 10, 11, 12, 13, 14, 15]
  values := [some 1, some 2, none, some 3, some 4, some 5, none, some 6,
             some 7, some 8, some 9, some 10, some 11, some 12, some 13, some 14]

/-- Concrete 3-sample series, shorter than the pad length. -/
def exShort : DataArray where
  coords := [0, 1, 2]
  values := [some 1, none, some 2]

/-- Concrete 16-sample series in which every value is missing. -/
def exAllMissing : DataArray where
  coords := [0, 1, 2, 3, 4, 5, 6, 7, 8, 9, 10, 11, 12, 13, 14, 15]
  values := List.replicate 16 none

-- Reduction lemmas for the Except monad operations used by the do-blocks.

lemma except_bind_ok {ε α β : Type} (a : α) (f : α → Except ε β) :
    (Except.ok a : Except ε α) >>= f = f a := rfl

lemma except_bind_error {ε α β : Type} (e : ε) (f : α → Except ε β) :
    (Except.error e : Except ε α) >>= f = Except.error e := rfl

lemma except_map_ok {ε α β : Type} (g : α → β) (a : α) :
    g <$> (Except.ok a : Except ε α) = Except.ok (g a) := rfl

lemma except_map_error {ε α β : Type} (g : α → β) (e : ε) :
    g <$> (Except.error e : Except ε α) = Except.error e := rfl

-- Basic facts about the exact frequency arithmetic.

lemma monthSeconds_pos : 0 < monthSeconds := by norm_num [monthSeconds]

lemma fs_ne_zero : fs ≠ 0 := by norm_num [fs, monthSeconds]

lemma cutoffNorm_eq (p : ℚ) : cutoffNorm p = 2 / p := by
  rcases eq_or_ne p 0 with hp | hp
  · simp [cutoffNorm, cutoffRaw, hp]
  · have hfs : fs ≠ 0 := fs_ne_zero
    rw [cutoffNorm, cutoffRaw, nyquist]
    field_simp
    ring

lemma cutoffNorm_valid_iff (p : ℚ) (hp : 0 < p) :
    (0 < cutoffNorm p ∧ cutoffNorm p < 1) ↔ 2 < p := by
  rw [cutoffNorm_eq]
  constructor
  · rintro ⟨-, hlt⟩
    exact (div_lt_one hp).mp hlt
  · intro h
    exact ⟨div_pos two_pos hp, (div_lt_one hp).mpr h⟩

lemma fillna_length (v : ℚ) (xs : List (Option ℚ)) :
    (fillna v xs).length = xs.length := by
  simp [fillna]

lemma whereNotnull_map_isSome (xs : List (Option ℚ)) (ys : List ℚ)
    (h : ys.length = xs.length) :
    (whereNotnull xs ys).map Option.isSome = xs.map Option.isSome := by
  induction xs generalizing ys with
  | nil => simp [whereNotnull]
  | cons a xs ih =>
    cases ys with
    | nil => simp at h
    | cons b ys =>
      simp only [List.length_cons, Nat.succ.injEq] at h
      have ihs := ih ys h
      simp only [whereNotnull] at ihs ⊢
      simp only [List.zipWith, List.map_cons]
      rw [ihs]
      cases a <;> rfl

lemma whereNotnull_length (xs : List (Option ℚ)) (ys : List ℚ)
    (h : ys.length = xs.length) :
    (whereNotnull xs ys).length = xs.length := by
  simp [whereNotnull, h]

lemma whereNotnull_all_none (xs : List (Option ℚ)) (ys : List ℚ)
    (hall : ∀ x ∈ xs, x = none) (h : ys.length = xs.length) :
    whereNotnull xs ys = xs := by
  induction xs generalizing ys with
  | nil => simp [whereNotnull]
  | cons a xs ih =>
    cases ys with
    | nil => simp at h
    | cons b ys =>
      simp only [List.length_cons, Nat.succ.injEq] at h
      have ha : a = none := hall a (by simp)
      have htail : ∀ x ∈ xs, x = none := fun x hx => hall x (by simp [hx])
      have ihs := ih ys htail h
      simp only [whereNotnull] at ihs ⊢
      simp only [List.zipWith]
      rw [ihs, ha]
      rfl

/-- Success unfolding of lpf_modata: when the normalized cutoff is valid
and the series is longer than the pad length, the transform succeeds and
returns the masked result of the sos kernel on the zero-filled values. -/
lemma lpf_modata_ok (D : DSP) (dat : DataArray) (p : ℚ)
    (hc : 0 < cutoffNorm p ∧ cutoffNorm p < 1)
    (hlen : D.sosPadlen (D.butterSOS 4 (cutoffNorm p)) < dat.values.length) :
    lpf_modata D dat p = Except.ok
      { coords := dat.coords,
        values := whereNotnull dat.values
          (D.sosfiltfilt (D.butterSOS 4 (cutoffNorm p)) PadType.even
            (fillna 0 dat.values)) } := by
  have hl : D.sosPadlen (D.butterSOS 4 (cutoffNorm p)) <
      (fillna 0 dat.values).length := by
    rw [fillna_length]; exact hlen
  simp [lpf_modata, butterChecked, butterCheckedTF, sosfiltfiltChecked,
    hc, hl, except_bind_ok, except_map_ok]

/-- Failure unfolding of lpf_modata for an invalid normalized cutoff. -/
lemma lpf_modata_invalid (D : DSP) (dat : DataArray) (p : ℚ)
    (hc : ¬(0 < cutoffNorm p ∧ cutoffNorm p < 1)) :
    lpf_modata D dat p = Except.error FilterError.invalidFilterSpec := by
  simp [lpf_modata, butterChecked, hc, except_bind_error]

/-- Failure unfolding of lpf_modata when the series is not longer than the
pad length (the ValueError of sosfiltfilt). -/
lemma lpf_modata_axis (D : DSP) (dat : DataArray) (p : ℚ)
    (hc : 0 < cutoffNorm p ∧ cutoffNorm p < 1)
    (hl : ¬ D.sosPadlen (D.butterSOS 4 (cutoffNorm p)) < dat.values.length) :
    lpf_modata D dat p = Except.error FilterError.axisError := by
  have hl2 : ¬ D.sosPadlen (D.butterSOS 4 (cutoffNorm p)) <
      (fillna 0 dat.values).length := by
    rw [fillna_length]; exact hl
  simp [lpf_modata, butterChecked, butterCheckedTF, sosfiltfiltChecked,
    hc, hl2, except_bind_ok, except_map_error]

/-- Case analysis on a successful run: it can only arise from the success
unfolding. -/
lemma lpf_modata_ok_inv (D : DSP) (dat : DataArray) (p : ℚ) (out : DataArray)
    (hok : lpf_modata D dat p = Except.ok out) :
    out = { coords := dat.coords,
            values := whereNotnull dat.values
              (D.sosfiltfilt (D.butterSOS 4 (cutoffNorm p)) PadType.even
                (fillna 0 dat.values)) } := by
  by_cases hc : 0 < cutoffNorm p ∧ cutoffNorm p < 1
  · by_cases hl : D.sosPadlen (D.butterSOS 4 (cutoffNorm p)) <
        dat.values.length
    · rw [lpf_modata_ok D dat p hc hl] at hok
      exact (Except.ok.inj hok).symm
    · rw [lpf_modata_axis D dat p hc hl] at hok
      exact absurd hok (by simp)
  · rw [lpf_modata_invalid D dat p hc] at hok
    exact absurd hok (by simp)

/-- Concrete DSP instance whose filtering kernel negates every value; it
shows mask and shape preservation with an output visibly different from
the input. -/
def negDSP : DSP where
  SOS := Unit
  TF := Unit
  butterSOS := fun _ _ => ()
  butterTF := fun _ _ => ()
  sosfiltfilt := fun _ _ x => x.map (fun v => -v)
  sosPadlen := fun _ => 15
  sos_len := fun _ _ x => by simp

/-- Expected output of lpf_modata with the negating kernel on exDat. -/
def exOut : DataArray where
  coords := [0, 1, 2, 3, 4, 5, 6, 7, 8, 9, 10, 11, 12, 13, 14, 15]
  values := [some (-1), some (-2), none, some (-3), some (-4), some (-5), none, some (-6),
             some (-7), some (-8), some (-9), some (-10), some (-11), some (-12), some (-13), some (-14)]

lemma hc120 : 0 < cutoffNorm 120 ∧ cutoffNorm 120 < 1 := by
  rw [cutoffNorm_eq]; norm_num

lemma lpf_neg_exDat : lpf_modata negDSP exDat 120 = Except.ok exOut := by
  have hlen : negDSP.sosPadlen (negDSP.butterSOS 4 (cutoffNorm 120)) <
      exDat.values.length := by decide
  rw [lpf_modata_ok negDSP exDat 120 hc120 hlen]
  rfl

/-- The diagnostic value printed by the code is exactly the requested
period in months: the effective cutoff period recovered from the
normalized cutoff round-trips. -/
lemma printedCutoffMonths_eq (p : ℚ) (hp : p ≠ 0) :
    printedCutoffMonths p = p := by
  have hM : monthSeconds ≠ 0 := ne_of_gt monthSeconds_pos
  have hfs : fs ≠ 0 := fs_ne_zero
  have hny : nyquist ≠ 0 := by rw [nyquist]; exact div_ne_zero hfs two_ne_zero
  rw [printedCutoffMonths, cutoffNorm, cutoffRaw, div_mul_cancel₀ _ hny,
    one_div_div, fs]
  field_simp

/-- Claim C1: missing-value mask preservation.  For every DSP kernel
satisfying the documented sosfiltfilt shape contract, every input series
and period, whenever lpf_modata succeeds, a position of the output is
missing exactly when the same position of the input is missing: missing
entries are zero-filled before filtering and the original mask is applied
once afterwards. -/
theorem mask_preservation (D : DSP) (dat : DataArray) (p : ℚ) (out : DataArray)
    (hok : lpf_modata D dat p = Except.ok out) :
    out.values.map Option.isSome = dat.values.map Option.isSome := by
  rw [lpf_modata_ok_inv D dat p out hok]
  apply whereNotnull_map_isSome
  rw [D.sos_len, fillna_length]

theorem mask_preservation_witness :
    lpf_modata negDSP exDat 120 = Except.ok exOut ∧
    exOut.values.map Option.isSome = exDat.values.map Option.isSome :=
  ⟨lpf_neg_exDat, mask_preservation negDSP exDat 120 exOut lpf_neg_exDat⟩

/-- Claim C2: invalid cutoff rejection and fail-fast.  For every series
and every period 0 < p ≤ 2 (fixed monthly sampling), lpf_modata stops with
the invalid-filter-spec error of the Butterworth design step, before the
filtering step runs, so no output array is produced. -/
theorem invalid_cutoff_rejected (D : DSP) (dat : DataArray) (p : ℚ)
    (h0 : 0 < p) (h2 : p ≤ 2) :
    lpf_modata D dat p = Except.error FilterError.invalidFilterSpec := by
  apply lpf_modata_invalid
  rw [cutoffNorm_valid_iff p h0]
  exact not_lt.mpr h2

theorem invalid_cutoff_rejected_witness :
    lpf_modata idDSP exDat 2 = Except.error FilterError.invalidFilterSpec :=
  invalid_cutoff_rejected idDSP exDat 2 (by norm_num) (by norm_num)

/-- Claim C3: shape and coordinate preservation.  Whenever lpf_modata
succeeds, the output has the same coordinates and the same length as the
input series. -/
theorem shape_coords_preserved (D : DSP) (dat : DataArray) (p : ℚ)
    (out : DataArray) (hok : lpf_modata D dat p = Except.ok out) :
    out.coords = dat.coords ∧ out.values.length = dat.values.length := by
  rw [lpf_modata_ok_inv D dat p out hok]
  refine ⟨rfl, ?_⟩
  apply whereNotnull_length
  rw [D.sos_len, fillna_length]

theorem shape_coords_preserved_witness :
    exOut.coords = exDat.coords ∧ exOut.values.length = exDat.values.length :=
  shape_coords_preserved negDSP exDat 120 exOut lpf_neg_exDat

/-- Claim C4: algorithm conformance of the filtering step.  For every
valid period and sufficiently long series, lpf_modata succeeds and the
output is the original mask applied to the result of the forward-backward
sos kernel, where the sos coefficients come from the 4th-order low-pass
Butterworth design at the normalized cutoff, applied with even (not odd)
extension padding to the zero-filled values. -/
theorem sos_even_padding_conformance (D : DSP) (dat : DataArray) (p : ℚ)
    (hp : 2 < p)
    (hlen : D.sosPadlen (D.butterSOS 4 (cutoffNorm p)) < dat.values.length) :
    lpf_modata D dat p = Except.ok
      { coords := dat.coords,
        values := whereNotnull dat.values
          (D.sosfiltfilt (D.butterSOS 4 (cutoffNorm p)) PadType.even
            (fillna 0 dat.values)) } :=
  lpf_modata_ok D dat p
    ((cutoffNorm_valid_iff p (lt_trans (by norm_num) hp)).mpr hp) hlen

theorem sos_even_padding_conformance_witness :
    lpf_modata negDSP exDat 120 = Except.ok
      { coords := exDat.coords,
        values := whereNotnull exDat.values
          (negDSP.sosfiltfilt (negDSP.butterSOS 4 (cutoffNorm 120)) PadType.even
            (fillna 0 exDat.values)) } :=
  sos_even_padding_conformance negDSP exDat 120 (by norm_num) (by decide)

/-- Claim C5: normalized cutoff computation.  For every period p > 0 the
normalized cutoff computed by the code, (fs/p)/(fs/2) with
fs = 1/(30.41667*24*3600), equals 2/p in exact arithmetic, and it lies
strictly between 0 and 1 exactly when p > 2. -/
theorem normalized_cutoff_eq (p : ℚ) (hp : 0 < p) :
    cutoffNorm p = 2 / p ∧ ((0 < cutoffNorm p ∧ cutoffNorm p < 1) ↔ 2 < p) :=
  ⟨cutoffNorm_eq p, cutoffNorm_valid_iff p hp⟩

theorem normalized_cutoff_eq_witness :
    cutoffNorm 120 = 2 / 120 ∧
    ((0 < cutoffNorm 120 ∧ cutoffNorm 120 < 1) ↔ 2 < (120 : ℚ)) :=
  normalized_cutoff_eq 120 (by norm_num)

/-- Claim C6: axis error on a too-short time axis.  For every valid
period, a series whose time axis does not exceed the pad length that
sosfiltfilt derives from the sos array (a small multiple of the filter
order) makes lpf_modata stop with the shape/axis mismatch error, producing
no partial output. -/
theorem short_series_axis_error (D : DSP) (dat : DataArray) (p : ℚ)
    (hp : 2 < p)
    (hshort : dat.values.length ≤ D.sosPadlen (D.butterSOS 4 (cutoffNorm p))) :
    lpf_modata D dat p = Except.error FilterError.axisError :=
  lpf_modata_axis D dat p
    ((cutoffNorm_valid_iff p (lt_trans (by norm_num) hp)).mpr hp)
    (not_lt.mpr hshort)

theorem short_series_axis_error_witness :
    lpf_modata idDSP exShort 120 = Except.error FilterError.axisError :=
  short_series_axis_error idDSP exShort 120 (by norm_num) (by decide)

/-- Claim C9: all-missing input.  For every valid period and every
sufficiently long series in which every value is missing, lpf_modata
succeeds and returns the series unchanged: the zero-filled values are
filtered and then fully masked back out, so every output value is again
missing. -/
theorem all_missing_preserved (D : DSP) (dat : DataArray) (p : ℚ)
    (hall : ∀ x ∈ dat.values, x = none) (hp : 2 < p)
    (hlen : D.sosPadlen (D.butterSOS 4 (cutoffNorm p)) < dat.values.length) :
    lpf_modata D dat p = Except.ok dat := by
  rw [lpf_modata_ok D dat p
    ((cutoffNorm_valid_iff p (lt_trans (by norm_num) hp)).mpr hp) hlen]
  have h1 : (D.sosfiltfilt (D.butterSOS 4 (cutoffNorm p)) PadType.even
      (fillna 0 dat.values)).length = dat.values.length := by
    rw [D.sos_len, fillna_length]
  rw [whereNotnull_all_none dat.values _ hall h1]

theorem all_missing_preserved_witness :
    lpf_modata idDSP exAllMissing 120 = Except.ok exAllMissing :=
  all_missing_preserved idDSP exAllMissing 120
    (fun x hx => List.eq_of_mem_replicate hx) (by norm_num) (by decide)

/-- Claim C10: the transfer-function design on line 13 of the script is
dead: removing it gives a transform that returns the same value on every
DSP kernel, series and period. -/
theorem tf_design_dead_code (D : DSP) (dat : DataArray) (p : ℚ) :
    lpf_modata D dat p = lpf_modata_noTF D dat p := by
  by_cases hc : 0 < cutoffNorm p ∧ cutoffNorm p < 1
  · simp [lpf_modata, lpf_modata_noTF, butterChecked, butterCheckedTF, hc,
      except_bind_ok]
  · simp [lpf_modata, lpf_modata_noTF, butterChecked, hc, except_bind_error]
